import Mathlib

/-!
Verification development for the AI upscaler front-end component
(source file: src/ai_upscaler_website_react_single_file.jsx).

The component is a single-page React view with nine state variables, an
intake handler (onFiles), an upload routine (uploadFile / startUpscale),
a polling loop against a status endpoint (the poll closure inside the
second useEffect), and a reset action (clearAll).

The embedding models the component as a labelled transition system.
Following the concurrency model of the component (single control flow,
at most one outstanding status query, the transfer resolving as one
suspension point), each user-visible operation is one atomic transition:
an intake event, an upload attempt carrying its resolved outcome and the
last measurable progress event, one resolution of a status query, and
the reset action.  Besides the nine state variables, the system state
tracks the observable side effects needed by the claims: the number of
preview-handle creations (URL.createObjectURL calls), the number of
releases (URL.revokeObjectURL calls, both the explicit ones and those
performed by the preview-cleanup effect at source lines 34-38), and
whether a status query is currently scheduled via setTimeout.
-/

/-- Media kind derived from the declared content type (source line 81):
image for a type beginning in image/, video for video/, otherwise null. -/
inductive MediaKind where
  | image
  | video
deriving DecidableEq

/-- A candidate file: its byte size and declared content type. -/
structure FileInfo where
  size : Nat
  type : String
deriving DecidableEq

/-- The nine useState variables of the component (source lines 20-28).
A preview handle is identified by the index of its creation. -/
structure AppState where
  file : Option FileInfo
  fileType : Option MediaKind
  previewUrl : Option Nat
  message : String
  uploadProgress : Nat
  processingProgress : Option Nat
  jobId : Option String
  resultUrl : Option String
  isProcessing : Bool
deriving DecidableEq

/-- Poll interval in milliseconds (source line 31). -/
def POLL_INTERVAL : Nat := 3000

/-- Maximum accepted file size in bytes, 1 GiB (source line 32). -/
def MAX_FILE_SIZE_BYTES : Nat := 1024 * 1024 * 1024

/-- The initial values of the nine state variables. -/
def initApp : AppState :=
  { file := none, fileType := none, previewUrl := none, message := "",
    uploadProgress := 0, processingProgress := none, jobId := none,
    resultUrl := none, isProcessing := false }

/-- Component state together with observable effect bookkeeping:
whether a status query is scheduled (a live setTimeout timer), how many
preview handles were created, and how many release calls were issued. -/
structure Sys where
  app : AppState
  timerPending : Bool
  created : Nat
  revoked : Nat
deriving DecidableEq

/-- The system state right after mounting the component. -/
def initSys : Sys :=
  { app := initApp, timerPending := false, created := 0, revoked := 0 }

/-- Content-type classification of source line 81. -/
def classify (t : String) : Option MediaKind :=
  if t.startsWith "image/" then some MediaKind.image
  else if t.startsWith "video/" then some MediaKind.video
  else none

/-- The rejection message of source line 77. -/
def oversizeMessage : String :=
  "File too large. Please upload a smaller file or use chunked/direct upload."

/-- onFiles (source lines 73-89).  An empty list returns unchanged; an
oversize first entry only sets the rejection message; otherwise the file
is stored, classified, the message cleared, the previous preview handle
released and a fresh one created, and result/progress state cleared.
A replaced handle is released twice: once explicitly at source line 84
and once by the cleanup of the preview effect (source lines 34-38) when
previewUrl changes. -/
def sysOnFiles (sys : Sys) (files : List FileInfo) : Sys :=
  match files with
  | [] => sys
  | f :: _ =>
    if MAX_FILE_SIZE_BYTES < f.size then
      { sys with app := { sys.app with message := oversizeMessage } }
    else
      { app := { sys.app with
          file := some f,
          fileType := classify f.type,
          message := "",
          previewUrl := some sys.created,
          resultUrl := none,
          processingProgress := none,
          uploadProgress := 0 },
        timerPending := sys.timerPending,
        created := sys.created + 1,
        revoked := sys.revoked + (if sys.app.previewUrl.isSome then 2 else 0) }

/-- The JSON body of an upload response: optional jobId and resultUrl. -/
structure UploadResponse where
  jobId : Option String
  resultUrl : Option String
deriving DecidableEq

/-- The resolution of the uploadFile promise: either the parsed response
body, or a rejection carrying the error message. -/
inductive UploadOutcome where
  | success (resp : UploadResponse)
  | failure (errMessage : String)
deriving DecidableEq

/-- JS truthiness of an optional string field: a missing field and the
empty string are falsy (used by the branching at source lines 149-152). -/
def truthy : Option String → Bool
  | some s => s ≠ ""
  | none => false

/-- JS a-or-else-b on an optional string, as in data.error at source
line 56: a missing field and the empty string both fall to the default. -/
def jsOrElse (a : Option String) (b : String) : String :=
  match a with
  | some s => if s = "" then b else s
  | none => b

/-- What the XMLHttpRequest of uploadFile delivers: a load event with an
HTTP status and the response body (none when the body is not valid
JSON), or a network error. -/
inductive XhrResult where
  | load (status : Nat) (body : Option UploadResponse)
  | networkError
deriving DecidableEq

/-- uploadFile resolution (source lines 101-128): a 2xx status resolves
with the parsed body, or with an empty object when parsing fails; any
other status rejects with an upload-failed message; a network error
rejects with a network-error message. -/
def uploadFileResult : XhrResult → UploadOutcome
  | XhrResult.load status body =>
    if 200 ≤ status ∧ status < 300 then
      UploadOutcome.success (body.getD { jobId := none, resultUrl := none })
    else
      UploadOutcome.failure ("Upload failed: " ++ toString status)
  | XhrResult.networkError => UploadOutcome.failure "Network error during upload"

/-- The percentage reported by the upload progress callback (source
line 121): Math.round of loaded / total * 100, where Math.round on a
nonnegative number is the floor of the number plus one half. -/
def uploadPct (loaded total : Nat) : Nat :=
  Nat.floor ((loaded : ℚ) / (total : ℚ) * 100 + 1 / 2)

/-- The percentage formula as the specification words it: the floor of
loaded / total * 100.  Declared for comparison with uploadPct, which is
the formula of the code. -/
def specPctFloor (loaded total : Nat) : Nat :=
  Nat.floor ((loaded : ℚ) / (total : ℚ) * 100)

/-- The state clearing performed at the start of startUpscale (source
lines 132-135): message, upload progress, processing progress and the
result are reset before the transfer begins. -/
def startClear (s : AppState) : AppState :=
  { s with
    message := "",
    uploadProgress := 0,
    processingProgress := none,
    resultUrl := none }

/-- Endpoint routing of source line 137: the image kind uses the image
endpoint, every other kind the video endpoint. -/
def endpointFor (ft : Option MediaKind) : String :=
  if ft = some MediaKind.image then "/api/upscale-image" else "/api/upscale-video"

/-- The branch on the resolved upload outcome (source lines 148-164):
a truthy jobId starts tracking and sets the informational message; else
a truthy resultUrl is recorded directly and processing ends; else the
unexpected-response message is shown and processing ends; a rejection
shows the upload-failure message and processing ends. -/
def applyUploadOutcome (s : AppState) (o : UploadOutcome) : AppState :=
  match o with
  | UploadOutcome.success r =>
    if truthy r.jobId then
      { s with jobId := r.jobId, message := "File uploaded. Processing started..." }
    else if truthy r.resultUrl then
      { s with resultUrl := r.resultUrl, isProcessing := false }
    else
      { s with
        message := "Unexpected server response. Check backend logs.",
        isProcessing := false }
  | UploadOutcome.failure e =>
    { s with message := "Upload failed: " ++ e, isProcessing := false }

/-- startUpscale (source lines 130-165) as one atomic transition, given
the resolved upload outcome and the last measurable progress event (a
loaded/total pair) observed during the transfer, if any.  Without a
selected file only the selection prompt is set.  Otherwise the prior
outcome is cleared, the processing flag raised, the upload progress set
by the progress callback, and the outcome branch applied. -/
def startUpscale (s : AppState) (o : UploadOutcome)
    (lastProgress : Option (Nat × Nat)) : AppState :=
  match s.file with
  | none => { s with message := "Koi file select karo." }
  | some _ =>
    let s1 := { startClear s with isProcessing := true }
    let s2 :=
      match lastProgress with
      | some lt => { s1 with uploadProgress := uploadPct lt.1 lt.2 }
      | none => s1
    applyUploadOutcome s2 o

/-- The upscale button triggering startUpscale is disabled while
isProcessing (source line 227), so the upload event fires only when the
processing flag is down. -/
def sysUpload (sys : Sys) (o : UploadOutcome)
    (lastProgress : Option (Nat × Nat)) : Sys :=
  if sys.app.isProcessing then sys
  else { sys with app := startUpscale sys.app o lastProgress }

/-- The JSON body of a status response (source line 49): a status
string, optional progress, optional result URL, optional error text. -/
structure StatusResponse where
  status : String
  progress : Option Nat
  resultUrl : Option String
  error : Option String
deriving DecidableEq

/-- One resolution of the poll closure (source lines 44-67) on the
component state.  The input is either the parsed status response or an
error covering the three failure ways of the try block: network error,
a non-ok HTTP status (line 47) and a JSON parse error.  Returns the new
state and the delay of the newly scheduled query, if one is scheduled. -/
def pollStep (s : AppState) (r : Except Unit StatusResponse) :
    AppState × Option Nat :=
  match r with
  | Except.error _ =>
    ({ s with message := "Could not fetch job status. Trying again..." },
      some POLL_INTERVAL)
  | Except.ok data =>
    let s1 := { s with processingProgress := data.progress }
    if data.status = "done" then
      ({ s1 with
          resultUrl := data.resultUrl,
          isProcessing := false,
          jobId := none }, none)
    else if data.status = "failed" then
      ({ s1 with
          message := jsOrElse data.error "Processing failed on server",
          isProcessing := false,
          jobId := none }, none)
    else
      (s1, some POLL_INTERVAL)

/-- The polling effect is active while a jobId is set and the
processing flag is up (source line 42). -/
def pollEnabled (s : AppState) : Bool :=
  s.jobId.isSome && s.isProcessing

/-- One status-query resolution at system level: it happens only while
polling is active; the scheduled-timer flag follows the delay returned
by the step (terminal branches schedule nothing, and the state change
also runs the effect cleanup of source lines 70-71). -/
def sysPoll (sys : Sys) (r : Except Unit StatusResponse) : Sys :=
  if pollEnabled sys.app then
    { sys with
      app := (pollStep sys.app r).1,
      timerPending := ((pollStep sys.app r).2).isSome }
  else sys

/-- clearAll (source lines 167-178) at system level: every state
variable returns to its initial value; the live preview handle, if any,
is released twice (explicitly at line 170 and by the preview-effect
cleanup once previewUrl turns null); the pending timer is cancelled by
the cleanup of the polling effect (source lines 70-71) re-running when
jobId and isProcessing change. -/
def sysClearAll (sys : Sys) : Sys :=
  { app := initApp,
    timerPending := false,
    created := sys.created,
    revoked := sys.revoked + (if sys.app.previewUrl.isSome then 2 else 0) }

/-- Component unmount: only the effect cleanups run — the live preview
handle, if any, is released once (source lines 34-38) and the pending
timer is cancelled (source lines 70-71). -/
def sysUnmount (sys : Sys) : Sys :=
  { app := sys.app,
    timerPending := false,
    created := sys.created,
    revoked := sys.revoked + (if sys.app.previewUrl.isSome then 1 else 0) }

/-- The atomic events of the transition system. -/
inductive Event where
  | files (fs : List FileInfo)
  | upload (o : UploadOutcome) (lastProgress : Option (Nat × Nat))
  | pollResult (r : Except Unit StatusResponse)
  | clear

/-- The transition function of the component. -/
def applyEvent (sys : Sys) : Event → Sys
  | Event.files fs => sysOnFiles sys fs
  | Event.upload o lastProgress => sysUpload sys o lastProgress
  | Event.pollResult r => sysPoll sys r
  | Event.clear => sysClearAll sys

/-- The states of the mounted component reachable from the initial
state under any sequence of events. -/
inductive Reachable : Sys → Prop where
  | init : Reachable initSys
  | step (s : Sys) (e : Event) : Reachable s → Reachable (applyEvent s e)

/-- Number of live preview handles: one while previewUrl is set. -/
def liveCount (sys : Sys) : Nat :=
  if sys.app.previewUrl.isSome then 1 else 0

/-- Inductive invariant of the reachable states: an active job and a
recorded result are mutually exclusive; a job can only be active while
the processing flag is up; and the release-call count accounts for two
releases of every replaced or cleared preview handle. -/
def SysInv (sys : Sys) : Prop :=
  (sys.app.jobId = none ∨ sys.app.resultUrl = none) ∧
  (sys.app.isProcessing = false → sys.app.jobId = none) ∧
  (sys.revoked + 2 * liveCount sys = 2 * sys.created)

theorem sysInv_init : SysInv initSys := by
  refine ⟨Or.inl rfl, fun _ => rfl, ?_⟩
  simp [liveCount, initSys, initApp]

theorem sysInv_step (sys : Sys) (e : Event) (h : SysInv sys) :
    SysInv (applyEvent sys e) := by
  obtain ⟨h1, h2, h3⟩ := h
  cases e with
  | files fs =>
    cases fs with
    | nil => exact ⟨h1, h2, h3⟩
    | cons f rest =>
      simp only [applyEvent, sysOnFiles]
      by_cases hs : MAX_FILE_SIZE_BYTES < f.size
      · simp only [if_pos hs]
        exact ⟨h1, h2, h3⟩
      · simp only [if_neg hs]
        refine ⟨Or.inr rfl, h2, ?_⟩
        cases hp : sys.app.previewUrl.isSome <;>
          simp [liveCount, hp] at h3 ⊢ <;> omega
  | upload o lp =>
    simp only [applyEvent, sysUpload]
    by_cases hip : sys.app.isProcessing
    · simp only [if_pos hip]
      exact ⟨h1, h2, h3⟩
    · simp only [if_neg hip]
      have hj : sys.app.jobId = none := h2 (by simpa using hip)
      simp only [startUpscale]
      cases hf : sys.app.file with
      | none => exact ⟨h1, h2, h3⟩
      | some f =>
        cases o with
        | success r =>
          simp only [applyUploadOutcome]
          by_cases hjr : truthy r.jobId
          · simp only [if_pos hjr]
            cases lp <;>
              exact ⟨Or.inr rfl, fun hc => absurd hc (by simp), h3⟩
          · simp only [if_neg hjr]
            by_cases hrr : truthy r.resultUrl
            · simp only [if_pos hrr]
              cases lp <;> exact ⟨Or.inl hj, fun _ => hj, h3⟩
            · simp only [if_neg hrr]
              cases lp <;> exact ⟨Or.inl hj, fun _ => hj, h3⟩
        | failure err =>
          simp only [applyUploadOutcome]
          cases lp <;> exact ⟨Or.inl hj, fun _ => hj, h3⟩
  | pollResult r =>
    simp only [applyEvent, sysPoll]
    by_cases hen : pollEnabled sys.app
    · simp only [if_pos hen]
      have hit : sys.app.isProcessing = true := by
        have := hen
        simp only [pollEnabled, Bool.and_eq_true] at this
        exact this.2
      cases r with
      | error u =>
        simp only [pollStep]
        exact ⟨h1, fun hc => by simp [hit] at hc, h3⟩
      | ok data =>
        simp only [pollStep]
        by_cases hd : data.status = "done"
        · simp only [if_pos hd]
          exact ⟨Or.inl rfl, fun _ => rfl, h3⟩
        · simp only [if_neg hd]
          by_cases hfl : data.status = "failed"
          · simp only [if_pos hfl]
            exact ⟨Or.inl rfl, fun _ => rfl, h3⟩
          · simp only [if_neg hfl]
            exact ⟨h1, fun hc => by simp [hit] at hc, h3⟩
    · simp only [if_neg hen]
      exact ⟨h1, h2, h3⟩
  | clear =>
    refine ⟨Or.inl rfl, fun _ => rfl, ?_⟩
    simp only [applyEvent, sysClearAll]
    cases hp : sys.app.previewUrl.isSome <;>
      simp [liveCount, hp, initApp] at h3 ⊢ <;> omega

theorem sysInv_reachable (sys : Sys) (h : Reachable sys) : SysInv sys := by
  induction h with
  | init => exact sysInv_init
  | step s e _ ih => exact sysInv_step s e ih

/-- C1 (amended): at every reachable state at most one of the Job
(jobId) and the ResultArtifact (resultUrl) is set — the message can
coexist with either of them — and startUpscale clears the prior
outcome (message, result reference and both progress values) before a
new transfer. -/
theorem outcomeMutex (sys : Sys) (h : Reachable sys) :
    (sys.app.jobId = none ∨ sys.app.resultUrl = none) ∧
    (∀ s : AppState, (startClear s).resultUrl = none ∧
      (startClear s).message = "" ∧
      (startClear s).processingProgress = none ∧
      (startClear s).uploadProgress = 0) :=
  ⟨(sysInv_reachable sys h).1, fun _ => ⟨rfl, rfl, rfl, rfl⟩⟩

/-- Witness for outcomeMutex at the initial state. -/
theorem outcomeMutex_witness :
    initSys.app.jobId = none ∨ initSys.app.resultUrl = none :=
  (outcomeMutex initSys Reachable.init).1

/-- C1 counterexample: the claim as stated fails on the code — right
after the successful-upload branch the Job is active while the message
holds the non-empty upload notice, so two of the three outcome fields
are set at once in a reachable state. -/
theorem outcomeMutex_counterexample :
    Reachable (applyEvent (applyEvent initSys
        (Event.files [{ size := 10, type := "image/png" }]))
        (Event.upload (UploadOutcome.success
          { jobId := some "abc123", resultUrl := none }) none)) ∧
    (applyEvent (applyEvent initSys
        (Event.files [{ size := 10, type := "image/png" }]))
        (Event.upload (UploadOutcome.success
          { jobId := some "abc123", resultUrl := none }) none)).app.jobId
      ≠ none ∧
    (applyEvent (applyEvent initSys
        (Event.files [{ size := 10, type := "image/png" }]))
        (Event.upload (UploadOutcome.success
          { jobId := some "abc123", resultUrl := none }) none)).app.message
      ≠ "" :=
  ⟨Reachable.step _ _ (Reachable.step _ _ Reachable.init),
    by decide, by decide⟩

/-- C2 (amended): the percentage handed to the progress callback is the
half-up rounding of bytes-sent over total-bytes times 100 — in integer
terms (200 * loaded + total) / (2 * total) — not its floor. -/
theorem uploadPct_round (loaded total : Nat) (h : 0 < total) :
    uploadPct loaded total = (200 * loaded + total) / (2 * total) := by
  have ht : (total : ℚ) ≠ 0 := Nat.cast_ne_zero.mpr h.ne'
  have key : (loaded : ℚ) / (total : ℚ) * 100 + 1 / 2
      = ((200 * loaded + total : ℕ) : ℚ) / ((2 * total : ℕ) : ℚ) := by
    push_cast
    field_simp
    ring
  rw [uploadPct, key, Nat.floor_div_eq_div]

/-- Witness for uploadPct_round at two of three bytes sent. -/
theorem uploadPct_round_witness :
    0 < 3 ∧ uploadPct 2 3 = (200 * 2 + 3) / (2 * 3) :=
  ⟨by decide, uploadPct_round 2 3 (by decide)⟩

/-- C2 counterexample: at two of three bytes sent the code reports the
rounding of 66.66, which is 67, while the floor formula of the claim
yields 66. -/
theorem uploadPct_counterexample :
    uploadPct 2 3 = 67 ∧ specPctFloor 2 3 = 66 ∧
      uploadPct 2 3 ≠ specPctFloor 2 3 := by
  have h1 : uploadPct 2 3 = 67 := by
    unfold uploadPct
    rw [show (((2:ℕ):ℚ)/((3:ℕ):ℚ)*100 + 1/2) = ((403:ℕ):ℚ)/((6:ℕ):ℚ) by
      push_cast; norm_num]
    rw [Nat.floor_div_eq_div]
  have h2 : specPctFloor 2 3 = 66 := by
    unfold specPctFloor
    rw [show (((2:ℕ):ℚ)/((3:ℕ):ℚ)*100) = ((200:ℕ):ℚ)/((3:ℕ):ℚ) by
      push_cast; norm_num]
    rw [Nat.floor_div_eq_div]
  refine ⟨h1, h2, ?_⟩
  rw [h1, h2]
  decide

/-- C3: an upload response carrying a result URL and no truthy jobId
records the ResultArtifact immediately, clears the processing flag,
leaves no active Job, and no polling phase is entered: polling is
disabled in the resulting state and every status-query resolution is a
no-op there. -/
theorem uploadSyncResult (sys : Sys) (r : UploadResponse) (u : String)
    (hreach : Reachable sys)
    (hproc : sys.app.isProcessing = false)
    (hfile : sys.app.file ≠ none)
    (hj : truthy r.jobId = false)
    (hr : r.resultUrl = some u) (hu : u ≠ "") :
    (sysUpload sys (UploadOutcome.success r) none).app.resultUrl = some u ∧
    (sysUpload sys (UploadOutcome.success r) none).app.isProcessing = false ∧
    (sysUpload sys (UploadOutcome.success r) none).app.jobId = none ∧
    pollEnabled (sysUpload sys (UploadOutcome.success r) none).app = false ∧
    (∀ q, sysPoll (sysUpload sys (UploadOutcome.success r) none) q
      = sysUpload sys (UploadOutcome.success r) none) := by
  have hjob : sys.app.jobId = none := (sysInv_reachable sys hreach).2.1 hproc
  obtain ⟨f, hf⟩ := Option.ne_none_iff_exists'.mp hfile
  have htr : truthy r.resultUrl = true := by
    rw [hr]; simp [truthy, hu]
  have hstate : sysUpload sys (UploadOutcome.success r) none
      = { sys with app := { startClear sys.app with
            isProcessing := false, resultUrl := r.resultUrl } } := by
    simp [sysUpload, hproc, startUpscale, hf, applyUploadOutcome, hj, htr]
  refine ⟨?_, ?_, ?_, ?_, ?_⟩
  · rw [hstate]; exact hr
  · rw [hstate]
  · rw [hstate]; exact hjob
  · rw [hstate]; simp [pollEnabled, startClear, hjob]
  · intro q
    rw [hstate]
    simp [sysPoll, pollEnabled, startClear, hjob]

/-- Witness for uploadSyncResult: a freshly selected small image and a
response carrying only a result URL. -/
theorem uploadSyncResult_witness :
    (sysUpload (applyEvent initSys
        (Event.files [{ size := 10, type := "image/png" }]))
      (UploadOutcome.success
        { jobId := none, resultUrl := some "https://x/out.mp4" })
      none).app.resultUrl = some "https://x/out.mp4" :=
  (uploadSyncResult _ _ _ (Reachable.step _ _ Reachable.init)
    (by decide) (by decide) (by decide) (by decide) (by decide)).1

/-- C4: a done response records the resultUrl of the response as the
ResultArtifact and clears the Job; a failed response records its error
message, falling back to the generic default when none is supplied, and
clears the Job; after either terminal transition no query is scheduled,
polling is disabled and any further status-query resolution leaves the
state unchanged. -/
theorem pollTerminal (sys : Sys) (r : StatusResponse)
    (h : pollEnabled sys.app = true) :
    (r.status = "done" →
      (sysPoll sys (Except.ok r)).app.resultUrl = r.resultUrl ∧
      (sysPoll sys (Except.ok r)).app.jobId = none ∧
      (sysPoll sys (Except.ok r)).app.isProcessing = false ∧
      (sysPoll sys (Except.ok r)).timerPending = false ∧
      pollEnabled (sysPoll sys (Except.ok r)).app = false ∧
      (∀ q, sysPoll (sysPoll sys (Except.ok r)) q
        = sysPoll sys (Except.ok r))) ∧
    (r.status = "failed" →
      (sysPoll sys (Except.ok r)).app.message
        = jsOrElse r.error "Processing failed on server" ∧
      (r.error = none →
        (sysPoll sys (Except.ok r)).app.message
          = "Processing failed on server") ∧
      (∀ e, r.error = some e → e ≠ "" →
        (sysPoll sys (Except.ok r)).app.message = e) ∧
      (sysPoll sys (Except.ok r)).app.jobId = none ∧
      (sysPoll sys (Except.ok r)).app.isProcessing = false ∧
      (sysPoll sys (Except.ok r)).timerPending = false ∧
      pollEnabled (sysPoll sys (Except.ok r)).app = false ∧
      (∀ q, sysPoll (sysPoll sys (Except.ok r)) q
        = sysPoll sys (Except.ok r))) := by
  constructor
  · intro hd
    have hstate : sysPoll sys (Except.ok r)
        = { sys with
            app := { sys.app with
              processingProgress := r.progress,
              resultUrl := r.resultUrl,
              isProcessing := false,
              jobId := none },
            timerPending := false } := by
      simp [sysPoll, h, pollStep, hd]
    refine ⟨?_, ?_, ?_, ?_, ?_, ?_⟩
    · rw [hstate]
    · rw [hstate]
    · rw [hstate]
    · rw [hstate]
    · rw [hstate]; simp [pollEnabled]
    · intro q; rw [hstate]; simp [sysPoll, pollEnabled]
  · intro hfl
    have hnd : r.status ≠ "done" := by rw [hfl]; decide
    have hstate : sysPoll sys (Except.ok r)
        = { sys with
            app := { sys.app with
              processingProgress := r.progress,
              message := jsOrElse r.error "Processing failed on server",
              isProcessing := false,
              jobId := none },
            timerPending := false } := by
      simp [sysPoll, h, pollStep, hnd, hfl]
    refine ⟨?_, ?_, ?_, ?_, ?_, ?_, ?_, ?_⟩
    · rw [hstate]
    · intro hme; rw [hstate]; simp [jsOrElse, hme]
    · intro e hme hne; rw [hstate]; simp [jsOrElse, hme, hne]
    · rw [hstate]
    · rw [hstate]
    · rw [hstate]
    · rw [hstate]; simp [pollEnabled]
    · intro q; rw [hstate]; simp [sysPoll, pollEnabled]

/-- Witness for pollTerminal: an active job receiving a done response
with a result URL, then checking the recorded artifact and the cleared
job. -/
theorem pollTerminal_witness :
    (sysPoll
      ⟨{ initApp with jobId := some "job1", isProcessing := true },
        true, 0, 0⟩
      (Except.ok ⟨"done", some 100, some "https://x/out.mp4", none⟩)).app.resultUrl
      = some "https://x/out.mp4" ∧
    (sysPoll
      ⟨{ initApp with jobId := some "job1", isProcessing := true },
        true, 0, 0⟩
      (Except.ok ⟨"done", some 100, some "https://x/out.mp4", none⟩)).app.jobId
      = none :=
  ⟨((pollTerminal _ _ (by decide)).1 (by decide)).1,
    ((pollTerminal _ _ (by decide)).1 (by decide)).2.1⟩

/-- Iterated failing status queries: n error resolutions in a row. -/
def pollErrorIter (n : Nat) (sys : Sys) : Sys :=
  match n with
  | 0 => sys
  | Nat.succ m => pollErrorIter m (sysPoll sys (Except.error ()))

theorem pollError_state (sys : Sys) (h : pollEnabled sys.app = true) :
    sysPoll sys (Except.error ())
      = { sys with
          app := { sys.app with
            message := "Could not fetch job status. Trying again..." },
          timerPending := true } := by
  simp [sysPoll, h, pollStep]

theorem pollEnabled_after_error (sys : Sys) (h : pollEnabled sys.app = true) :
    pollEnabled (sysPoll sys (Except.error ())).app = true := by
  rw [pollError_state sys h]
  simpa [pollEnabled] using h

theorem pollErrorIter_enabled (n : Nat) (sys : Sys)
    (h : pollEnabled sys.app = true) :
    pollEnabled (pollErrorIter n sys).app = true := by
  induction n generalizing sys with
  | zero => exact h
  | succ m ih => exact ih _ (pollEnabled_after_error sys h)

theorem pollErrorIter_jobId (n : Nat) (sys : Sys)
    (h : pollEnabled sys.app = true) :
    (pollErrorIter n sys).app.jobId = sys.app.jobId := by
  induction n generalizing sys with
  | zero => rfl
  | succ m ih =>
    have := ih (sysPoll sys (Except.error ())) (pollEnabled_after_error sys h)
    rw [pollErrorIter, this, pollError_state sys h]

/-- C5: a failing status query never yields the Failed terminal state:
it sets the transient message, keeps the Job and the processing flag,
and schedules the retry after the same fixed 3000 ms interval; polling
stays enabled after any number of consecutive query failures, with the
Job unchanged; a failed response arriving after two query failures
still produces the terminal failed state carrying its error message,
with no further query scheduled. -/
theorem pollErrorRetries (sys : Sys) (e : String)
    (h : pollEnabled sys.app = true) (he : e ≠ "") :
    (sysPoll sys (Except.error ())).app.jobId = sys.app.jobId ∧
    (sysPoll sys (Except.error ())).app.isProcessing = sys.app.isProcessing ∧
    (sysPoll sys (Except.error ())).app.resultUrl = sys.app.resultUrl ∧
    (sysPoll sys (Except.error ())).app.message
      = "Could not fetch job status. Trying again..." ∧
    (pollStep sys.app (Except.error ())).2 = some POLL_INTERVAL ∧
    POLL_INTERVAL = 3000 ∧
    (sysPoll sys (Except.error ())).timerPending = true ∧
    (∀ n, pollEnabled (pollErrorIter n sys).app = true) ∧
    (∀ n, (pollErrorIter n sys).app.jobId = sys.app.jobId) ∧
    ((sysPoll (pollErrorIter 2 sys)
        (Except.ok ⟨"failed", none, none, some e⟩)).app.message = e ∧
      (sysPoll (pollErrorIter 2 sys)
        (Except.ok ⟨"failed", none, none, some e⟩)).app.jobId = none ∧
      pollEnabled (sysPoll (pollErrorIter 2 sys)
        (Except.ok ⟨"failed", none, none, some e⟩)).app = false ∧
      (sysPoll (pollErrorIter 2 sys)
        (Except.ok ⟨"failed", none, none, some e⟩)).timerPending = false) := by
  have h2 : pollEnabled (pollErrorIter 2 sys).app = true :=
    pollErrorIter_enabled 2 sys h
  have hterm : sysPoll (pollErrorIter 2 sys)
      (Except.ok ⟨"failed", none, none, some e⟩)
      = { pollErrorIter 2 sys with
          app := { (pollErrorIter 2 sys).app with
            processingProgress := none,
            message := jsOrElse (some e) "Processing failed on server",
            isProcessing := false,
            jobId := none },
          timerPending := false } := by
    simp [sysPoll, h2, pollStep]
  refine ⟨?_, ?_, ?_, ?_, ?_, ?_, ?_, ?_, ?_, ?_, ?_, ?_, ?_⟩
  · rw [pollError_state sys h]
  · rw [pollError_state sys h]
  · rw [pollError_state sys h]
  · rw [pollError_state sys h]
  · simp [pollStep]
  · rfl
  · rw [pollError_state sys h]
  · intro n; exact pollErrorIter_enabled n sys h
  · intro n; exact pollErrorIter_jobId n sys h
  · rw [hterm]; simp [jsOrElse, he]
  · rw [hterm]
  · rw [hterm]; simp [pollEnabled]
  · rw [hterm]

/-- Witness for pollErrorRetries on an active job and the error text
boom. -/
theorem pollErrorRetries_witness :
    (sysPoll ⟨{ initApp with jobId := some "job1", isProcessing := true },
        true, 0, 0⟩ (Except.error ())).app.jobId = some "job1" ∧
    (sysPoll (pollErrorIter 2
        ⟨{ initApp with jobId := some "job1", isProcessing := true },
          true, 0, 0⟩)
      (Except.ok ⟨"failed", none, none, some "boom"⟩)).app.message
      = "boom" :=
  ⟨by
    rw [(pollErrorRetries
      ⟨{ initApp with jobId := some "job1", isProcessing := true }, true, 0, 0⟩
      "boom" (by decide) (by decide)).1],
    (pollErrorRetries
      ⟨{ initApp with jobId := some "job1", isProcessing := true }, true, 0, 0⟩
      "boom" (by decide) (by decide)).2.2.2.2.2.2.2.2.2.1⟩

/-- C6: an oversize candidate file is rejected by intake: the
user-visible oversize message is set, and the selected file, the
preview handle and every other piece of tracked state — progress, job,
result, the handle counters and the timer — are unchanged. -/
theorem oversizeRejected (sys : Sys) (f : FileInfo) (rest : List FileInfo)
    (h : MAX_FILE_SIZE_BYTES < f.size) :
    (sysOnFiles sys (f :: rest)).app.message = oversizeMessage ∧
    (sysOnFiles sys (f :: rest)).app.file = sys.app.file ∧
    (sysOnFiles sys (f :: rest)).app.previewUrl = sys.app.previewUrl ∧
    sysOnFiles sys (f :: rest)
      = { sys with app := { sys.app with message := oversizeMessage } } := by
  have hstate : sysOnFiles sys (f :: rest)
      = { sys with app := { sys.app with message := oversizeMessage } } := by
    simp [sysOnFiles, h]
  exact ⟨by rw [hstate], by rw [hstate], by rw [hstate], hstate⟩

/-- Witness for oversizeRejected: a file one byte over the 1 GiB
maximum leaves everything but the message unchanged. -/
theorem oversizeRejected_witness :
    MAX_FILE_SIZE_BYTES < 1073741825 ∧
    sysOnFiles initSys [{ size := 1073741825, type := "video/mp4" }]
      = { initSys with
          app := { initSys.app with message := oversizeMessage } } :=
  ⟨by decide,
    (oversizeRejected initSys ⟨1073741825, "video/mp4"⟩ [] (by decide)).2.2.2⟩

/-- C7: the reset action returns every tracked state variable to its
initial value from any state whatsoever, cancels any pending scheduled
status query, disables polling so no query can fire afterwards, and is
a total function, so it never fails; the creation count is kept, as
resetting destroys no record of past preview handles. -/
theorem clearAllResets (sys : Sys) :
    (sysClearAll sys).app = initApp ∧
    (sysClearAll sys).timerPending = false ∧
    pollEnabled (sysClearAll sys).app = false ∧
    (∀ r, sysPoll (sysClearAll sys) r = sysClearAll sys) ∧
    applyEvent sys Event.clear = sysClearAll sys := by
  refine ⟨rfl, rfl, rfl, ?_, rfl⟩
  intro r
  simp [sysPoll, pollEnabled, sysClearAll, initApp]

/-- Witness for clearAllResets at a mid-poll state: an active job with
a pending timer returns to the initial state. -/
theorem clearAllResets_witness :
    (sysClearAll
      ⟨{ initApp with jobId := some "job1", isProcessing := true },
        true, 3, 4⟩).app = initApp ∧
    (sysClearAll
      ⟨{ initApp with jobId := some "job1", isProcessing := true },
        true, 3, 4⟩).timerPending = false :=
  ⟨(clearAllResets _).1, (clearAllResets _).2.1⟩

/-- C8 (amended): at most one preview handle is live at any reachable
state, and every handle created earlier than the live one has been
released; because a replaced or cleared handle is released twice — once
explicitly and once by the preview-cleanup effect — the count of
release calls equals twice the difference of creations and live
handles, not that difference itself; unmounting releases the live
handle exactly once more. -/
theorem previewHandleAccounting (sys : Sys) (h : Reachable sys) :
    liveCount sys ≤ 1 ∧
    sys.revoked + 2 * liveCount sys = 2 * sys.created ∧
    (sysUnmount sys).revoked = sys.revoked + liveCount sys := by
  refine ⟨?_, (sysInv_reachable sys h).2.2, rfl⟩
  unfold liveCount
  split <;> omega

/-- Witness for previewHandleAccounting at the initial state. -/
theorem previewHandleAccounting_witness :
    initSys.revoked + 2 * liveCount initSys = 2 * initSys.created :=
  (previewHandleAccounting initSys Reachable.init).2.1

/-- C8 counterexample: after two accepted intakes two handles were
created, one is live, and two release calls were made — the explicit
revoke plus the effect cleanup — so the release-call count is 2, not
creations minus live handles, which is 1. -/
theorem previewHandleAccounting_counterexample :
    Reachable (applyEvent (applyEvent initSys
        (Event.files [{ size := 10, type := "image/png" }]))
        (Event.files [{ size := 11, type := "image/jpeg" }])) ∧
    (applyEvent (applyEvent initSys
        (Event.files [{ size := 10, type := "image/png" }]))
        (Event.files [{ size := 11, type := "image/jpeg" }])).created = 2 ∧
    liveCount (applyEvent (applyEvent initSys
        (Event.files [{ size := 10, type := "image/png" }]))
        (Event.files [{ size := 11, type := "image/jpeg" }])) = 1 ∧
    (applyEvent (applyEvent initSys
        (Event.files [{ size := 10, type := "image/png" }]))
        (Event.files [{ size := 11, type := "image/jpeg" }])).revoked = 2 ∧
    (applyEvent (applyEvent initSys
        (Event.files [{ size := 10, type := "image/png" }]))
        (Event.files [{ size := 11, type := "image/jpeg" }])).revoked
      ≠ (applyEvent (applyEvent initSys
        (Event.files [{ size := 10, type := "image/png" }]))
        (Event.files [{ size := 11, type := "image/jpeg" }])).created
      - liveCount (applyEvent (applyEvent initSys
        (Event.files [{ size := 10, type := "image/png" }]))
        (Event.files [{ size := 11, type := "image/jpeg" }])) :=
  ⟨Reachable.step _ _ (Reachable.step _ _ Reachable.init),
    by decide, by decide, by decide, by decide⟩

/-- C9: a candidate file whose byte size is exactly the configured
maximum of 1 GiB is accepted by intake, since rejection requires a size
strictly greater than the maximum: the file is stored, the message
cleared and a fresh preview handle created. -/
theorem boundaryAccepted (sys : Sys) (f : FileInfo) (rest : List FileInfo)
    (h : f.size = MAX_FILE_SIZE_BYTES) :
    (sysOnFiles sys (f :: rest)).app.file = some f ∧
    (sysOnFiles sys (f :: rest)).app.message = "" ∧
    (sysOnFiles sys (f :: rest)).app.previewUrl = some sys.created ∧
    (sysOnFiles sys (f :: rest)).created = sys.created + 1 := by
  have hn : ¬ MAX_FILE_SIZE_BYTES < f.size := by omega
  simp [sysOnFiles, hn]

/-- Witness for boundaryAccepted: a file of exactly 1073741824 bytes is
stored by intake. -/
theorem boundaryAccepted_witness :
    (1073741824 : Nat) = MAX_FILE_SIZE_BYTES ∧
    (sysOnFiles initSys [{ size := 1073741824, type := "image/png" }]).app.file
      = some { size := 1073741824, type := "image/png" } :=
  ⟨by decide,
    (boundaryAccepted initSys ⟨1073741824, "image/png"⟩ [] (by decide)).1⟩

/-- C10: a 2xx upload response whose body is not valid JSON makes
uploadFile resolve with an empty object rather than reject, so
startUpscale takes the unexpected-server-response branch: that message
is set, the processing flag cleared and no result recorded — not the
upload-failure branch. -/
theorem invalidJsonUnexpected (sys : Sys) (status : Nat)
    (h1 : 200 ≤ status) (h2 : status < 300)
    (hproc : sys.app.isProcessing = false) (hfile : sys.app.file ≠ none) :
    uploadFileResult (XhrResult.load status none)
      = UploadOutcome.success { jobId := none, resultUrl := none } ∧
    (sysUpload sys (uploadFileResult (XhrResult.load status none))
      none).app.message
      = "Unexpected server response. Check backend logs." ∧
    (sysUpload sys (uploadFileResult (XhrResult.load status none))
      none).app.isProcessing = false ∧
    (sysUpload sys (uploadFileResult (XhrResult.load status none))
      none).app.resultUrl = none := by
  obtain ⟨f, hf⟩ := Option.ne_none_iff_exists'.mp hfile
  have hu : uploadFileResult (XhrResult.load status none)
      = UploadOutcome.success { jobId := none, resultUrl := none } := by
    simp [uploadFileResult, h1, h2]
  refine ⟨hu, ?_, ?_, ?_⟩ <;> rw [hu] <;>
    simp [sysUpload, hproc, startUpscale, hf, applyUploadOutcome, truthy,
      startClear]

/-- Witness for invalidJsonUnexpected: status 200 with an unparsable
body after selecting a small image. -/
theorem invalidJsonUnexpected_witness :
    (sysUpload (applyEvent initSys
        (Event.files [{ size := 10, type := "image/png" }]))
      (uploadFileResult (XhrResult.load 200 none)) none).app.message
      = "Unexpected server response. Check backend logs." :=
  (invalidJsonUnexpected _ 200 (by decide) (by decide)
    (by decide) (by decide)).2.1
